import Mathlib

/-!
# Verification of the CMOS-inverter sizing tool

A shallow embedding, over exact rationals, of the analytic performance
evaluator (`perf_cmos_inverter.py`), the MIDACO objective/constraint
adapter, the LTSpice simulation-backed evaluator and the grid-search
driver (`src/optimize_inverter_ltspice.py`).  Python floats are modelled
as exact rationals; every definition mirrors the corresponding lines of
the source files.
-/

set_option maxHeartbeats 1000000

namespace CmosInverter

/-! ## Process constants (perf_cmos_inverter.py, lines 19-43 and 85, 91) -/

def VDD : ℚ := 3.3
def VTH_N : ℚ := 0.498
def VTH_P : ℚ := 0.6915
def U0_N : ℚ := 475.8
def U0_P : ℚ := 148.2
def TOX : ℚ := 7.575e-9
def EPS_OX : ℚ := 3.9 * 8.85e-12
def COX : ℚ := EPS_OX / TOX
def MU_N : ℚ := U0_N * 1e-4
def MU_P : ℚ := U0_P * 1e-4
def KPRIME_N : ℚ := MU_N * COX
def KPRIME_P : ℚ := MU_P * COX
def CL : ℚ := 10e-15
def F_CLK : ℚ := 100e6
def ALPHA_DELAY : ℚ := 0.69
def I_LEAK : ℚ := 10e-9
def FACTOR_LAYOUT : ℚ := 3.0

/-- Overdrive voltages computed inside `compute_performances` (lines 69-70). -/
def VOD_N : ℚ := VDD - VTH_N

def VOD_P : ℚ := VDD - VTH_P

/-- The record returned (as a dict) by `compute_performances` (lines 94-100). -/
structure PerformanceRecord where
  delay : ℚ
  power_dyn : ℚ
  power_stat : ℚ
  power_total : ℚ
  area : ℚ
deriving DecidableEq

/-- NMOS equivalent resistance, line 72 of `perf_cmos_inverter.py`:
`R_n = 1.0 / (KPRIME_N * (Wn_m / L_m) * VOD_N) if Wn_m > 0 else 1e12`. -/
def R_n_of (Wn L : ℚ) : ℚ :=
  if Wn * 1e-6 > 0 then 1.0 / (KPRIME_N * ((Wn * 1e-6) / (L * 1e-6)) * VOD_N) else 1e12

/-- PMOS equivalent resistance, line 73 of `perf_cmos_inverter.py`. -/
def R_p_of (Wp L : ℚ) : ℚ :=
  if Wp * 1e-6 > 0 then 1.0 / (KPRIME_P * ((Wp * 1e-6) / (L * 1e-6)) * VOD_P) else 1e12

/-- Function `compute_performances` (perf_cmos_inverter.py, lines 46-100), with the
micrometer-to-meter conversions and intermediate quantities inlined exactly
as in the source. -/
def compute_performances (Wn Wp L : ℚ) : PerformanceRecord :=
  let R_n := R_n_of Wn L
  let R_p := R_p_of Wp L
  let tp_n := ALPHA_DELAY * R_n * CL
  let tp_p := ALPHA_DELAY * R_p * CL
  let tp := (tp_n + tp_p) / 2.0
  let P_dyn := CL * VDD ^ 2 * F_CLK
  let P_stat := I_LEAK * VDD
  let area_um2 := (Wn + Wp) * L * FACTOR_LAYOUT
  { delay := tp
    power_dyn := P_dyn
    power_stat := P_stat
    power_total := P_dyn + P_stat
    area := area_um2 }

/-- Function `compute_performances_for_optim` (perf_cmos_inverter.py, lines 103-128):
the MIDACO adapter.  `x` is the parameter vector `[Wn, Wp, L]`; the result is
the pair `([f], g)` of the scalar objective and the constraint residuals. -/
def compute_performances_for_optim (x : ℚ × ℚ × ℚ) : List ℚ × List ℚ :=
  let Wn := x.1
  let Wp := x.2.1
  let L := x.2.2
  let perf := compute_performances Wn Wp L
  let f_delay := perf.delay * 1e9
  let f_power := perf.power_total * 1e6
  let f_area := perf.area
  let f := 1.0 * f_delay + 0.01 * f_power + 0.001 * f_area
  let rr := if Wn > 0.01 then Wp / Wn else 1.0
  ([f], [rr - 1.2, 4.5 - rr])

/-! ## Positivity facts about the process constants -/

lemma KPRIME_N_pos : 0 < KPRIME_N := by
  norm_num [KPRIME_N, MU_N, COX, EPS_OX, TOX, U0_N]

lemma KPRIME_P_pos : 0 < KPRIME_P := by
  norm_num [KPRIME_P, MU_P, COX, EPS_OX, TOX, U0_P]

lemma VOD_N_pos : 0 < VOD_N := by norm_num [VOD_N, VDD, VTH_N]

lemma VOD_P_pos : 0 < VOD_P := by norm_num [VOD_P, VDD, VTH_P]

lemma CL_pos : 0 < CL := by norm_num [CL]

lemma ALPHA_DELAY_pos : 0 < ALPHA_DELAY := by norm_num [ALPHA_DELAY]

/-- Whatever the width, the equivalent NMOS resistance is positive as soon as
the channel length is positive (the sentinel branch returns `1e12 > 0`). -/
lemma R_n_of_pos (Wn L : ℚ) (hL : 0 < L) : 0 < R_n_of Wn L := by
  unfold R_n_of
  split_ifs with h
  · have hL6 : 0 < L * 1e-6 := by positivity
    have hdiv : 0 < (Wn * 1e-6) / (L * 1e-6) := div_pos h hL6
    have hden : 0 < KPRIME_N * ((Wn * 1e-6) / (L * 1e-6)) * VOD_N :=
      mul_pos (mul_pos KPRIME_N_pos hdiv) VOD_N_pos
    exact div_pos (by norm_num) hden
  · norm_num

/-- Same for the PMOS resistance. -/
lemma R_p_of_pos (Wp L : ℚ) (hL : 0 < L) : 0 < R_p_of Wp L := by
  unfold R_p_of
  split_ifs with h
  · have hL6 : 0 < L * 1e-6 := by positivity
    have hdiv : 0 < (Wp * 1e-6) / (L * 1e-6) := div_pos h hL6
    have hden : 0 < KPRIME_P * ((Wp * 1e-6) / (L * 1e-6)) * VOD_P :=
      mul_pos (mul_pos KPRIME_P_pos hdiv) VOD_P_pos
    exact div_pos (by norm_num) hden
  · norm_num

/-- The delay field written out in terms of the two resistances. -/
lemma delay_eq (Wn Wp L : ℚ) :
    (compute_performances Wn Wp L).delay =
      (ALPHA_DELAY * R_n_of Wn L * CL + ALPHA_DELAY * R_p_of Wp L * CL) / 2.0 := rfl

/-- C1.  For all strictly positive `(Wn, Wp, L)`, `compute_performances`
returns strictly positive `delay`, `power_dyn`, `power_stat`, `power_total`
and `area`, and `power_total = power_dyn + power_stat`.  (Floats are modelled
as exact rationals, in which every value is finite.) -/
theorem claim_C1_performances_positive (Wn Wp L : ℚ)
    (hWn : 0 < Wn) (hWp : 0 < Wp) (hL : 0 < L) :
    0 < (compute_performances Wn Wp L).delay ∧
    0 < (compute_performances Wn Wp L).power_dyn ∧
    0 < (compute_performances Wn Wp L).power_stat ∧
    0 < (compute_performances Wn Wp L).power_total ∧
    0 < (compute_performances Wn Wp L).area ∧
    (compute_performances Wn Wp L).power_total =
      (compute_performances Wn Wp L).power_dyn +
        (compute_performances Wn Wp L).power_stat := by
  have hRn := R_n_of_pos Wn L hL
  have hRp := R_p_of_pos Wp L hL
  refine ⟨?_, ?_, ?_, ?_, ?_, rfl⟩
  · rw [delay_eq]
    have h1 : 0 < ALPHA_DELAY * R_n_of Wn L * CL :=
      mul_pos (mul_pos ALPHA_DELAY_pos hRn) CL_pos
    have h2 : 0 < ALPHA_DELAY * R_p_of Wp L * CL :=
      mul_pos (mul_pos ALPHA_DELAY_pos hRp) CL_pos
    exact div_pos (add_pos h1 h2) (by norm_num)
  · show 0 < CL * VDD ^ 2 * F_CLK
    norm_num [CL, VDD, F_CLK]
  · show 0 < I_LEAK * VDD
    norm_num [I_LEAK, VDD]
  · show 0 < CL * VDD ^ 2 * F_CLK + I_LEAK * VDD
    norm_num [CL, VDD, F_CLK, I_LEAK]
  · show 0 < (Wn + Wp) * L * FACTOR_LAYOUT
    have : 0 < FACTOR_LAYOUT := by norm_num [FACTOR_LAYOUT]
    exact mul_pos (mul_pos (add_pos hWn hWp) hL) this

/-- Witness for C1 at the documented starting point `(2, 6, 0.35)`. -/
theorem claim_C1_witness :
    (0:ℚ) < 2 ∧ (0:ℚ) < 6 ∧ (0:ℚ) < 35/100 ∧
    (0 < (compute_performances 2 6 (35/100)).delay ∧
     0 < (compute_performances 2 6 (35/100)).power_dyn ∧
     0 < (compute_performances 2 6 (35/100)).power_stat ∧
     0 < (compute_performances 2 6 (35/100)).power_total ∧
     0 < (compute_performances 2 6 (35/100)).area ∧
     (compute_performances 2 6 (35/100)).power_total =
       (compute_performances 2 6 (35/100)).power_dyn +
         (compute_performances 2 6 (35/100)).power_stat) :=
  ⟨by norm_num, by norm_num, by norm_num,
    claim_C1_performances_positive 2 6 (35/100) (by norm_num) (by norm_num)
      (by norm_num)⟩

/-! ## Bounds on the delay over the declared optimisation box, for C2 -/

/-- Over the declared box the NMOS resistance is at most `5000` ohms. -/
lemma R_n_of_le (Wn L : ℚ) (h1 : 1/2 ≤ Wn) (hl1 : 7/20 ≤ L) (hl2 : L ≤ 1) :
    R_n_of Wn L ≤ 5000 := by
  have hLpos : 0 < L := lt_of_lt_of_le (by norm_num) hl1
  have hWpos : Wn * 1e-6 > 0 := by nlinarith
  unfold R_n_of
  rw [if_pos hWpos]
  have hql : (Wn * 1e-6) / (L * 1e-6) = Wn / L := by
    rw [mul_div_mul_comm, div_self (by norm_num : (1e-6 : ℚ) ≠ 0), mul_one]
  rw [hql]
  have hratio : (1/2 : ℚ) ≤ Wn / L := by
    rw [le_div_iff hLpos]
    nlinarith
  have hden0 : 0 < KPRIME_N * (1/2) * VOD_N :=
    mul_pos (mul_pos KPRIME_N_pos (by norm_num)) VOD_N_pos
  have hden_lb : KPRIME_N * (1/2) * VOD_N ≤ KPRIME_N * (Wn / L) * VOD_N := by
    apply mul_le_mul_of_nonneg_right _ (le_of_lt VOD_N_pos)
    exact mul_le_mul_of_nonneg_left hratio (le_of_lt KPRIME_N_pos)
  have hone : (1.0 : ℚ) = 1 := by norm_num
  rw [hone]
  calc 1 / (KPRIME_N * (Wn / L) * VOD_N)
      ≤ 1 / (KPRIME_N * (1/2) * VOD_N) :=
        one_div_le_one_div_of_le hden0 hden_lb
    _ ≤ 5000 := by
        rw [div_le_iff hden0]
        norm_num [KPRIME_N, MU_N, COX, EPS_OX, TOX, U0_N, VOD_N, VDD, VTH_N]

/-- Over the declared box the PMOS resistance is at most `12000` ohms. -/
lemma R_p_of_le (Wp L : ℚ) (h1 : 1/2 ≤ Wp) (hl1 : 7/20 ≤ L) (hl2 : L ≤ 1) :
    R_p_of Wp L ≤ 12000 := by
  have hLpos : 0 < L := lt_of_lt_of_le (by norm_num) hl1
  have hWpos : Wp * 1e-6 > 0 := by nlinarith
  unfold R_p_of
  rw [if_pos hWpos]
  have hql : (Wp * 1e-6) / (L * 1e-6) = Wp / L := by
    rw [mul_div_mul_comm, div_self (by norm_num : (1e-6 : ℚ) ≠ 0), mul_one]
  rw [hql]
  have hratio : (1/2 : ℚ) ≤ Wp / L := by
    rw [le_div_iff hLpos]
    nlinarith
  have hden0 : 0 < KPRIME_P * (1/2) * VOD_P :=
    mul_pos (mul_pos KPRIME_P_pos (by norm_num)) VOD_P_pos
  have hden_lb : KPRIME_P * (1/2) * VOD_P ≤ KPRIME_P * (Wp / L) * VOD_P := by
    apply mul_le_mul_of_nonneg_right _ (le_of_lt VOD_P_pos)
    exact mul_le_mul_of_nonneg_left hratio (le_of_lt KPRIME_P_pos)
  have hone : (1.0 : ℚ) = 1 := by norm_num
  rw [hone]
  calc 1 / (KPRIME_P * (Wp / L) * VOD_P)
      ≤ 1 / (KPRIME_P * (1/2) * VOD_P) :=
        one_div_le_one_div_of_le hden0 hden_lb
    _ ≤ 12000 := by
        rw [div_le_iff hden0]
        norm_num [KPRIME_P, MU_P, COX, EPS_OX, TOX, U0_P, VOD_P, VDD, VTH_P]

/-- Inside the declared bounds the computed delay is at most `1e-10` s. -/
lemma delay_ub (Wn Wp L : ℚ) (hn1 : 1/2 ≤ Wn) (hp1 : 1/2 ≤ Wp)
    (hl1 : 7/20 ≤ L) (hl2 : L ≤ 1) :
    (compute_performances Wn Wp L).delay ≤ 1e-10 := by
  rw [delay_eq]
  have h1 := R_n_of_le Wn L hn1 hl1 hl2
  have h2 := R_p_of_le Wp L hp1 hl1 hl2
  have hn : ALPHA_DELAY * R_n_of Wn L * CL ≤ ALPHA_DELAY * 5000 * CL := by
    apply mul_le_mul_of_nonneg_right _ (le_of_lt CL_pos)
    exact mul_le_mul_of_nonneg_left h1 (le_of_lt ALPHA_DELAY_pos)
  have hp : ALPHA_DELAY * R_p_of Wp L * CL ≤ ALPHA_DELAY * 12000 * CL := by
    apply mul_le_mul_of_nonneg_right _ (le_of_lt CL_pos)
    exact mul_le_mul_of_nonneg_left h2 (le_of_lt ALPHA_DELAY_pos)
  have hsum := add_le_add hn hp
  have hconst : ALPHA_DELAY * 5000 * CL + ALPHA_DELAY * 12000 * CL =
      1173/10000000000000 := by norm_num [ALPHA_DELAY, CL]
  rw [hconst] at hsum
  have : (1173/10000000000000 : ℚ) / 2.0 ≤ 1e-10 := by norm_num
  calc (ALPHA_DELAY * R_n_of Wn L * CL + ALPHA_DELAY * R_p_of Wp L * CL) / 2.0
      ≤ (1173/10000000000000 : ℚ) / 2.0 :=
        (div_le_div_right (by norm_num)).mpr hsum
    _ ≤ 1e-10 := this

/-- A degenerate NMOS width (`Wn ≤ 0`) puts the delay above `1e-10` s. -/
lemma delay_lb_degenerate_n (Wn Wp L : ℚ) (hW : Wn ≤ 0) (hL : 0 < L) :
    (1e-10 : ℚ) < (compute_performances Wn Wp L).delay := by
  have hRn : R_n_of Wn L = 1e12 := by
    unfold R_n_of
    rw [if_neg]
    intro hcon
    nlinarith
  have hRp : 0 < R_p_of Wp L := R_p_of_pos Wp L hL
  rw [delay_eq, hRn]
  have hp : 0 < ALPHA_DELAY * R_p_of Wp L * CL :=
    mul_pos (mul_pos ALPHA_DELAY_pos hRp) CL_pos
  have hconst : ALPHA_DELAY * 1e12 * CL = 69/10000 := by
    norm_num [ALPHA_DELAY, CL]
  rw [hconst]
  nlinarith

/-- A degenerate PMOS width (`Wp ≤ 0`) puts the delay above `1e-10` s. -/
lemma delay_lb_degenerate_p (Wn Wp L : ℚ) (hW : Wp ≤ 0) (hL : 0 < L) :
    (1e-10 : ℚ) < (compute_performances Wn Wp L).delay := by
  have hRp : R_p_of Wp L = 1e12 := by
    unfold R_p_of
    rw [if_neg]
    intro hcon
    nlinarith
  have hRn : 0 < R_n_of Wn L := R_n_of_pos Wn L hL
  rw [delay_eq, hRp]
  have hn : 0 < ALPHA_DELAY * R_n_of Wn L * CL :=
    mul_pos (mul_pos ALPHA_DELAY_pos hRn) CL_pos
  have hconst : ALPHA_DELAY * 1e12 * CL = 69/10000 := by
    norm_num [ALPHA_DELAY, CL]
  rw [hconst]
  nlinarith

/-- C2.  With a degenerate width (`Wn ≤ 0`, and symmetrically `Wp ≤ 0`) the
corresponding equivalent resistance is the sentinel `1e12` (so the total
embedded function never divides by zero), and the resulting delay strictly
dominates the delay of every point of the declared optimisation box
`0.5 ≤ Wn' ≤ 50`, `0.5 ≤ Wp' ≤ 150`, `0.35 ≤ L' ≤ 1`. -/
theorem claim_C2_degenerate_width_sentinel (Wn Wp L Wn' Wp' L' : ℚ)
    (hL : 0 < L)
    (hn1 : 1/2 ≤ Wn') (hn2 : Wn' ≤ 50) (hp1 : 1/2 ≤ Wp') (hp2 : Wp' ≤ 150)
    (hl1 : 7/20 ≤ L') (hl2 : L' ≤ 1) :
    (Wn ≤ 0 → R_n_of Wn L = 1e12 ∧
      (compute_performances Wn' Wp' L').delay <
        (compute_performances Wn Wp L).delay) ∧
    (Wp ≤ 0 → R_p_of Wp L = 1e12 ∧
      (compute_performances Wn' Wp' L').delay <
        (compute_performances Wn Wp L).delay) := by
  have hub := delay_ub Wn' Wp' L' hn1 hp1 hl1 hl2
  constructor
  · intro hW
    refine ⟨?_, lt_of_le_of_lt hub (delay_lb_degenerate_n Wn Wp L hW hL)⟩
    unfold R_n_of
    rw [if_neg]
    intro hcon
    nlinarith
  · intro hW
    refine ⟨?_, lt_of_le_of_lt hub (delay_lb_degenerate_p Wn Wp L hW hL)⟩
    unfold R_p_of
    rw [if_neg]
    intro hcon
    nlinarith

/-- Witness for C2: degenerate point `(0, 6, 0.35)` against the in-bounds
point `(2, 6, 0.35)`. -/
theorem claim_C2_witness :
    (0:ℚ) < 35/100 ∧ (1/2:ℚ) ≤ 2 ∧ (2:ℚ) ≤ 50 ∧ (1/2:ℚ) ≤ 6 ∧ (6:ℚ) ≤ 150 ∧
    (7/20:ℚ) ≤ 35/100 ∧ (35/100:ℚ) ≤ 1 ∧
    (((0:ℚ) ≤ 0 → R_n_of 0 (35/100) = 1e12 ∧
        (compute_performances 2 6 (35/100)).delay <
          (compute_performances 0 6 (35/100)).delay) ∧
      ((6:ℚ) ≤ 0 → R_p_of 6 (35/100) = 1e12 ∧
        (compute_performances 2 6 (35/100)).delay <
          (compute_performances 0 6 (35/100)).delay)) :=
  ⟨by norm_num, by norm_num, by norm_num, by norm_num, by norm_num,
    by norm_num, by norm_num,
    claim_C2_degenerate_width_sentinel 0 6 (35/100) 2 6 (35/100)
      (by norm_num) (by norm_num) (by norm_num) (by norm_num) (by norm_num)
      (by norm_num) (by norm_num)⟩

/-- C3.  The scalar objective of the adapter is exactly
`1.0 * (delay * 1e9) + 0.01 * (power_total * 1e6) + 0.001 * area`, with the
fields taken from `compute_performances`. -/
theorem claim_C3_objective_formula (x : ℚ × ℚ × ℚ) :
    (compute_performances_for_optim x).1 =
      [1.0 * ((compute_performances x.1 x.2.1 x.2.2).delay * 1e9) +
        0.01 * ((compute_performances x.1 x.2.1 x.2.2).power_total * 1e6) +
        0.001 * (compute_performances x.1 x.2.1 x.2.2).area] := rfl

/-- The constraint residual list, above the epsilon threshold on `Wn`. -/
lemma residuals_eq (Wn Wp L : ℚ) (h : Wn > 0.01) :
    (compute_performances_for_optim (Wn, Wp, L)).2 =
      [Wp / Wn - 1.2, 4.5 - Wp / Wn] := by
  simp only [compute_performances_for_optim, if_pos h]

/-- C4.  Above the epsilon threshold on `Wn` the adapter returns exactly the
residuals `[Wp/Wn - 1.2, 4.5 - Wp/Wn]`; at ratio `1.2` the first residual is
`0`, at `1.19` it is negative, at `4.5` the second residual is `0`, at `4.51`
it is negative. -/
theorem claim_C4_constraint_residuals (Wn Wp L : ℚ) (h : Wn > 0.01) :
    (compute_performances_for_optim (Wn, Wp, L)).2 =
      [Wp / Wn - 1.2, 4.5 - Wp / Wn] ∧
    (Wp / Wn = 1.2 →
      (compute_performances_for_optim (Wn, Wp, L)).2.head? = some 0) ∧
    (Wp / Wn = 1.19 →
      ∃ a, (compute_performances_for_optim (Wn, Wp, L)).2.head? = some a ∧
        a < 0) ∧
    (Wp / Wn = 4.5 →
      (compute_performances_for_optim (Wn, Wp, L)).2.get? 1 = some 0) ∧
    (Wp / Wn = 4.51 →
      ∃ b, (compute_performances_for_optim (Wn, Wp, L)).2.get? 1 = some b ∧
        b < 0) := by
  have hlist := residuals_eq Wn Wp L h
  refine ⟨hlist, ?_, ?_, ?_, ?_⟩
  · intro hr; rw [hlist]; simp [hr]
  · intro hr; rw [hlist]; exact ⟨Wp / Wn - 1.2, by simp, by rw [hr]; norm_num⟩
  · intro hr; rw [hlist]; simp [hr]
  · intro hr; rw [hlist]; exact ⟨4.5 - Wp / Wn, by simp, by rw [hr]; norm_num⟩

/-- Witness for C4 at `Wn = 1`, `Wp = 6/5` (ratio exactly `1.2`). -/
theorem claim_C4_witness :
    (1:ℚ) > 0.01 ∧
    ((compute_performances_for_optim (1, 6/5, 35/100)).2 =
        [(6/5 : ℚ) / 1 - 1.2, 4.5 - (6/5 : ℚ) / 1] ∧
      ((6/5 : ℚ) / 1 = 1.2 →
        (compute_performances_for_optim (1, 6/5, 35/100)).2.head? = some 0) ∧
      ((6/5 : ℚ) / 1 = 1.19 →
        ∃ a, (compute_performances_for_optim (1, 6/5, 35/100)).2.head? =
          some a ∧ a < 0) ∧
      ((6/5 : ℚ) / 1 = 4.5 →
        (compute_performances_for_optim (1, 6/5, 35/100)).2.get? 1 = some 0) ∧
      ((6/5 : ℚ) / 1 = 4.51 →
        ∃ b, (compute_performances_for_optim (1, 6/5, 35/100)).2.get? 1 =
          some b ∧ b < 0)) :=
  ⟨by norm_num, claim_C4_constraint_residuals 1 (6/5) (35/100) (by norm_num)⟩

/-- C5.  At or below the epsilon threshold (`Wn ≤ 0.01`, including zero and
negative `Wn`), the ratio is forced to `1.0`, so the residuals are exactly
`[1.0 - 1.2, 4.5 - 1.0]` for every `Wp`; the embedding takes the sentinel
branch, so no division by `Wn` occurs. -/
theorem claim_C5_forced_ratio (Wn Wp L : ℚ) (h : Wn ≤ 0.01) :
    (compute_performances_for_optim (Wn, Wp, L)).2 = [1.0 - 1.2, 4.5 - 1.0] := by
  have h' : ¬ (Wn > 0.01) := not_lt.mpr h
  simp only [compute_performances_for_optim, if_neg h']

/-- Witness for C5 at `Wn = 0`, `Wp = 7`. -/
theorem claim_C5_witness :
    (0:ℚ) ≤ 0.01 ∧
    (compute_performances_for_optim (0, 7, 35/100)).2 = [1.0 - 1.2, 4.5 - 1.0] :=
  ⟨by norm_num, claim_C5_forced_ratio 0 7 (35/100) (by norm_num)⟩

/-! ## Simulation-backed evaluator (src/optimize_inverter_ltspice.py)

The external toolchain (spicelib, LTSpice, the filesystem) is modelled as an
explicit environment: each fallible external call is a field of `SimEnv`
whose value records whether that call raises (Python exception, modelled by
`Except Unit`) and, for the measurement reads, which value it yields.
`run_simulation_and_extract_delay` then mirrors, branch for branch, lines
41-111 of `src/optimize_inverter_ltspice.py`. -/

/-- The dict returned by `run_simulation_and_extract_delay`. -/
structure SimOutcome where
  success : Bool
  delay_ns : ℚ
  tphl : ℚ
  tplh : ℚ
deriving DecidableEq

/-- The terminal failure outcome
`{'success': False, 'delay_ns': 1e6, 'tphl': 1e6, 'tplh': 1e6}`
(lines 42, 51, 70, 76, 111). -/
def failureOutcome : SimOutcome :=
  { success := false, delay_ns := 1e6, tphl := 1e6, tplh := 1e6 }

/-- Observable behaviour of the external simulation toolchain during one call
of `run_simulation_and_extract_delay`.  `Except Unit α` models a Python call
that either raises (`error`) or returns an `α`. -/
structure SimEnv where
  /-- Flag `SPICELIB_AVAILABLE` (lines 15-22). -/
  spicelib_available : Bool
  /-- Result of `cir_file.exists()` (line 50). -/
  cir_file_exists : Bool
  /-- The submission steps: `SpiceEditor`, `set_parameter`, `SimRunner`,
  `run`, `wait_completion` (lines 54-67); an error models any exception
  raised there, caught by the outer handler. -/
  submit : Except Unit Unit
  /-- Value of `runner.failSim` (line 69). -/
  failSim : Nat
  /-- Whether `len(runner.completed_tasks) == 0` (line 69). -/
  completed_tasks_empty : Bool
  /-- Negation of `log_file is None or not Path(log_file).exists()` (line 75). -/
  log_file_exists : Bool
  /-- Construction of `LTSpiceLogReader(str(log_file))` (line 80). -/
  readerInit : Except Unit Unit
  /-- Call `log.get_measure_value("tphl")` (line 81). -/
  read_tphl : Except Unit ℚ
  /-- Call `log.get_measure_value("tplh")` (line 82). -/
  read_tplh : Except Unit ℚ
  /-- Reading of the raw log in the fallback (lines 86-87). -/
  fallback_read : Except Unit Unit
  /-- Result of `re.search` for `tphl` plus `float()` of the matched group (lines
  88, 90-91): `none` when there is no match, otherwise the result of the
  `float` conversion. -/
  fallback_tphl : Option (Except Unit ℚ)
  /-- Result of `re.search` for `tplh` plus `float()` (lines 89, 92-93). -/
  fallback_tplh : Option (Except Unit ℚ)

/-- The structured extraction attempt (lines 80-82).  On success it yields
both measurements; on an exception it yields the partial assignments of
`tphl`/`tplh` made before the raise (Python keeps them in scope for the
fallback). -/
def structuredExtract (env : SimEnv) :
    Except (Option ℚ × Option ℚ) (ℚ × ℚ) :=
  match env.readerInit with
  | Except.error _ => Except.error (none, none)
  | Except.ok _ =>
    match env.read_tphl with
    | Except.error _ => Except.error (none, none)
    | Except.ok v1 =>
      match env.read_tplh with
      | Except.error _ => Except.error (some v1, none)
      | Except.ok v2 => Except.ok (v1, v2)

/-- The textual fallback (lines 84-93), run only when the structured attempt
raised; `pre` holds the partial assignments it left behind.  An `error`
result models an exception escaping to the outer handler (failed file read,
or a matched group `float()` cannot parse). -/
def fallbackExtract (pre : Option ℚ × Option ℚ) (env : SimEnv) :
    Except Unit (Option ℚ × Option ℚ) :=
  match env.fallback_read with
  | Except.error _ => Except.error ()
  | Except.ok _ =>
    match env.fallback_tphl with
    | some (Except.error _) => Except.error ()
    | some (Except.ok v) =>
      match env.fallback_tplh with
      | some (Except.error _) => Except.error ()
      | some (Except.ok w) => Except.ok (some v, some w)
      | none => Except.ok (some v, pre.2)
    | none =>
      match env.fallback_tplh with
      | some (Except.error _) => Except.error ()
      | some (Except.ok w) => Except.ok (pre.1, some w)
      | none => Except.ok pre

/-- Lines 78-93: the two-stage measurement extraction, yielding the values of
the Python variables `tphl`, `tplh` after the inner `try`/`except`, or an
uncaught exception. -/
def extractMeasures (env : SimEnv) : Except Unit (Option ℚ × Option ℚ) :=
  match structuredExtract env with
  | Except.ok (v1, v2) => Except.ok (some v1, some v2)
  | Except.error pre => fallbackExtract pre env

/-- Function `run_simulation_and_extract_delay` (lines 28-111), as a function of the
toolchain environment.  The unit-string formatting of lines 45-47 is pure and
does not influence the outcome; it is modelled separately below. -/
def run_simulation_and_extract_delay (env : SimEnv) : SimOutcome :=
  if env.spicelib_available = false then failureOutcome
  else if env.cir_file_exists = false then failureOutcome
  else
    match env.submit with
    | Except.error _ => failureOutcome
    | Except.ok _ =>
      if 0 < env.failSim ∨ env.completed_tasks_empty = true then failureOutcome
      else if env.log_file_exists = false then failureOutcome
      else
        match extractMeasures env with
        | Except.error _ => failureOutcome
        | Except.ok (tphl?, tplh?) =>
          let tphl := tphl?.getD 1e-6
          let tplh := tplh?.getD 1e-6
          let tpd := (tphl + tplh) / 2.0
          { success := true
            delay_ns := tpd * 1e9
            tphl := tphl * 1e9
            tplh := tplh * 1e9 }

/-! ## Grid-search driver (`optimize_with_simulator`, lines 114-178) -/

def Wn_values : List ℚ := [1.0, 2.0, 3.0]

def Wp_values : List ℚ := [3.0, 6.0, 9.0]

def L_val : ℚ := 0.35

/-- The Cartesian grid traversed by the two nested `for` loops
(lines 145-146), in iteration order. -/
def gridPairs : List (ℚ × ℚ) :=
  Wn_values.bind (fun Wn => Wp_values.map (fun Wp => (Wn, Wp)))

/-- One iteration of the loop body (lines 147-157) acting on the state
`(best_delay, best_params)`; `ev` is the evaluator called on the surviving
pairs (in the source, `run_simulation_and_extract_delay` with `L = L_val`). -/
def gridStep (ev : ℚ → ℚ → SimOutcome) (st : ℚ × Option (ℚ × ℚ × ℚ))
    (p : ℚ × ℚ) : ℚ × Option (ℚ × ℚ × ℚ) :=
  if p.2 / p.1 < 1.2 ∨ p.2 / p.1 > 4.5 then st
  else
    let result := ev p.1 p.2
    if result.success = true then
      if result.delay_ns < st.1 then (result.delay_ns, some (p.1, p.2, L_val))
      else st
    else st

/-- The grid search of `optimize_with_simulator`: fold of the loop body over
the grid, starting from `best_delay = 1e9`, `best_params = None`
(lines 142-143). -/
def optimize_with_simulator (ev : ℚ → ℚ → SimOutcome) :
    ℚ × Option (ℚ × ℚ × ℚ) :=
  gridPairs.foldl (gridStep ev) (1e9, none)

/-- The pairs that survive the hard ratio filter of line 147. -/
def evaluatedPairs : List (ℚ × ℚ) :=
  gridPairs.filter
    (fun p => !(decide (p.2 / p.1 < 1.2) || decide (p.2 / p.1 > 4.5)))

/-! ## Unit-suffix formatting (lines 45-47) -/

/-- Round to the nearest integer, ties to even: the rounding of Python's
fixed-point formatting, idealised to exact rationals. -/
def round_half_even (q : ℚ) : ℤ :=
  let fl := Rat.floor q
  let frac := q - fl
  if frac < 1/2 then fl
  else if 1/2 < frac then fl + 1
  else if fl % 2 = 0 then fl else fl + 1

/-- Left-pad a digit string with zeros to the given length. -/
def padLeftZeros (s : String) (len : Nat) : String :=
  if len ≤ s.length then s
  else String.mk (List.replicate (len - s.length) '0') ++ s

/-- Python `"%.Nf"` formatting of an exact rational: round half-to-even at
`prec` decimal places and print with exactly `prec` digits after the point
(no point at all when `prec = 0`). -/
def fmtFixed (q : ℚ) (prec : Nat) : String :=
  let scaled : ℤ := round_half_even (q * (10 : ℚ) ^ prec)
  let sign := if scaled < 0 then "-" else ""
  let a := scaled.natAbs
  let ipart := a / 10 ^ prec
  let fpart := a % 10 ^ prec
  if prec = 0 then sign ++ toString ipart
  else sign ++ toString ipart ++ "." ++ padLeftZeros (toString fpart) prec

/-- Line 45: `Wn_str = f"{Wn_um:.2f}u" if Wn_um >= 1 else f"{Wn_um*1000:.0f}n"`. -/
def Wn_str_of (Wn_um : ℚ) : String :=
  if Wn_um ≥ 1 then fmtFixed Wn_um 2 ++ "u" else fmtFixed (Wn_um * 1000) 0 ++ "n"

/-- Line 46: same formatting for `Wp_um`. -/
def Wp_str_of (Wp_um : ℚ) : String :=
  if Wp_um ≥ 1 then fmtFixed Wp_um 2 ++ "u" else fmtFixed (Wp_um * 1000) 0 ++ "n"

/-- Line 47: `L_str = f"{L_um:.3f}u" if L_um >= 0.1 else f"{L_um*1000:.0f}n"`.
Note the threshold is `0.1`, not `1`. -/
def L_str_of (L_um : ℚ) : String :=
  if L_um ≥ 0.1 then fmtFixed L_um 3 ++ "u" else fmtFixed (L_um * 1000) 0 ++ "n"

/-- The last character of a string, used to observe the unit suffix. -/
def lastChar (s : String) : Option Char :=
  s.data.getLast?

/-! ## Facts about the unit-suffix formatting, for C9 -/

/-- Rounding an integer changes nothing. -/
lemma round_half_even_intCast (n : ℤ) : round_half_even (n : ℚ) = n := by
  unfold round_half_even
  have hf : Rat.floor (n : ℚ) = n := by
    rw [Rat.floor_def']
    simp
  rw [hf]
  simp

/-- The fixed-point rendering of `1/2` at three decimal places. -/
lemma fmtFixed_half_three : fmtFixed (1/2) 3 = "0.500" := by
  simp only [fmtFixed]
  have h : (1/2 : ℚ) * (10 : ℚ) ^ (3 : ℕ) = ((500 : ℤ) : ℚ) := by norm_num
  rw [h, round_half_even_intCast]
  rfl

/-- Appending the character `u` makes `u` the last character. -/
lemma lastChar_append_u (s : String) : lastChar (s ++ "u") = some 'u' := by
  unfold lastChar
  have hdata : (s ++ "u").data = s.data ++ ['u'] := by
    cases s
    rfl
  rw [hdata, List.getLast?_concat]

/-- Appending the character `n` makes `n` the last character. -/
lemma lastChar_append_n (s : String) : lastChar (s ++ "n") = some 'n' := by
  unfold lastChar
  have hdata : (s ++ "n").data = s.data ++ ['n'] := by
    cases s
    rfl
  rw [hdata, List.getLast?_concat]

/-- C9, counterexample to the claim as stated: the channel-length dimension
`L_um = 0.5` is strictly below `1` yet is formatted with the micrometer
suffix (`"0.500u"`), because the source's threshold for `L` is `0.1`, not
`1`. -/
theorem claim_C9_counterexample :
    (1/2 : ℚ) < 1 ∧ L_str_of (1/2) = "0.500u" ∧
    lastChar (L_str_of (1/2)) = some 'u' ∧ ('u' : Char) ≠ 'n' := by
  have hL : L_str_of (1/2) = "0.500u" := by
    unfold L_str_of
    rw [if_pos (by norm_num : (1/2 : ℚ) ≥ 0.1), fmtFixed_half_three]
    rfl
  refine ⟨by norm_num, hL, ?_, by decide⟩
  rw [hL]
  rfl

/-- C9, amended.  The width dimensions `Wn_um`, `Wp_um` are formatted with
the micrometer suffix when `≥ 1` and the nanometer suffix otherwise; the
length dimension `L_um` however switches at `0.1`, not at `1`.  The
formatting is a total function: it has no failure path. -/
theorem claim_C9_suffix_thresholds (v : ℚ) :
    (1 ≤ v → Wn_str_of v = fmtFixed v 2 ++ "u" ∧
      Wp_str_of v = fmtFixed v 2 ++ "u" ∧
      lastChar (Wn_str_of v) = some 'u' ∧ lastChar (Wp_str_of v) = some 'u') ∧
    (v < 1 → Wn_str_of v = fmtFixed (v * 1000) 0 ++ "n" ∧
      Wp_str_of v = fmtFixed (v * 1000) 0 ++ "n" ∧
      lastChar (Wn_str_of v) = some 'n' ∧ lastChar (Wp_str_of v) = some 'n') ∧
    (1/10 ≤ v → L_str_of v = fmtFixed v 3 ++ "u" ∧
      lastChar (L_str_of v) = some 'u') ∧
    (v < 1/10 → L_str_of v = fmtFixed (v * 1000) 0 ++ "n" ∧
      lastChar (L_str_of v) = some 'n') := by
  refine ⟨?_, ?_, ?_, ?_⟩
  · intro h
    have e1 : Wn_str_of v = fmtFixed v 2 ++ "u" := by
      unfold Wn_str_of; rw [if_pos h]
    have e2 : Wp_str_of v = fmtFixed v 2 ++ "u" := by
      unfold Wp_str_of; rw [if_pos h]
    exact ⟨e1, e2, by rw [e1]; exact lastChar_append_u _,
      by rw [e2]; exact lastChar_append_u _⟩
  · intro h
    have h' : ¬ (v ≥ 1) := not_le.mpr h
    have e1 : Wn_str_of v = fmtFixed (v * 1000) 0 ++ "n" := by
      unfold Wn_str_of; rw [if_neg h']
    have e2 : Wp_str_of v = fmtFixed (v * 1000) 0 ++ "n" := by
      unfold Wp_str_of; rw [if_neg h']
    exact ⟨e1, e2, by rw [e1]; exact lastChar_append_n _,
      by rw [e2]; exact lastChar_append_n _⟩
  · intro h
    have h01 : v ≥ 0.1 := by
      calc (0.1 : ℚ) ≤ 1/10 := by norm_num
        _ ≤ v := h
    have e : L_str_of v = fmtFixed v 3 ++ "u" := by
      unfold L_str_of; rw [if_pos h01]
    exact ⟨e, by rw [e]; exact lastChar_append_u _⟩
  · intro h
    have h01 : ¬ (v ≥ 0.1) := by
      rw [not_le]
      calc v < 1/10 := h
        _ ≤ 0.1 := by norm_num
    have e : L_str_of v = fmtFixed (v * 1000) 0 ++ "n" := by
      unfold L_str_of; rw [if_neg h01]
    exact ⟨e, by rw [e]; exact lastChar_append_n _⟩

/-- Witness for the amended C9 at `v = 2`. -/
theorem claim_C9_witness :
    (1 : ℚ) ≤ 2 ∧
    (Wn_str_of 2 = fmtFixed 2 2 ++ "u" ∧ Wp_str_of 2 = fmtFixed 2 2 ++ "u" ∧
      lastChar (Wn_str_of 2) = some 'u' ∧ lastChar (Wp_str_of 2) = some 'u') :=
  ⟨by norm_num, (claim_C9_suffix_thresholds 2).1 (by norm_num)⟩

/-! ## Claims about the simulation-backed evaluator and the grid search -/

/-- C6.  `run_simulation_and_extract_delay` never propagates an exception:
whatever the toolchain does, the embedded function yields either the single
terminal failure outcome `{success: false, delay_ns: 1e6, tphl: 1e6,
tplh: 1e6}` or a success outcome; in particular an unavailable toolchain, an
exception in the submission steps, and an exception escaping the extraction
all yield exactly that failure outcome. -/
theorem claim_C6_failure_containment (env : SimEnv) :
    (run_simulation_and_extract_delay env = failureOutcome ∨
      (run_simulation_and_extract_delay env).success = true) ∧
    (env.spicelib_available = false →
      run_simulation_and_extract_delay env = failureOutcome) ∧
    (env.submit = Except.error () →
      run_simulation_and_extract_delay env = failureOutcome) ∧
    (extractMeasures env = Except.error () →
      run_simulation_and_extract_delay env = failureOutcome) := by
  refine ⟨?_, ?_, ?_, ?_⟩
  · unfold run_simulation_and_extract_delay
    repeat' split
    all_goals simp_all
  · intro h
    simp [run_simulation_and_extract_delay, h]
  · intro h
    unfold run_simulation_and_extract_delay
    repeat' split
    all_goals simp_all
  · intro h
    unfold run_simulation_and_extract_delay
    repeat' split
    all_goals simp_all

/-- An environment with no toolchain installed. -/
def envUnavailable : SimEnv :=
  { spicelib_available := false, cir_file_exists := false
    submit := Except.error (), failSim := 0, completed_tasks_empty := true
    log_file_exists := false, readerInit := Except.error ()
    read_tphl := Except.error (), read_tplh := Except.error ()
    fallback_read := Except.error (), fallback_tphl := none
    fallback_tplh := none }

/-- Witness for C6: with the toolchain unavailable, the call returns the
terminal failure outcome. -/
theorem claim_C6_witness :
    (run_simulation_and_extract_delay envUnavailable = failureOutcome ∨
      (run_simulation_and_extract_delay envUnavailable).success = true) ∧
    (envUnavailable.spicelib_available = false →
      run_simulation_and_extract_delay envUnavailable = failureOutcome) ∧
    (envUnavailable.submit = Except.error () →
      run_simulation_and_extract_delay envUnavailable = failureOutcome) ∧
    (extractMeasures envUnavailable = Except.error () →
      run_simulation_and_extract_delay envUnavailable = failureOutcome) :=
  claim_C6_failure_containment envUnavailable

/-- C7.  When the simulation completes and extraction yields a `tplh` value
but no `tphl` from either path, the result is a *success* outcome with the
1-microsecond sentinel substituted for `tphl` and the averaged delay built
from that substituted value. -/
theorem claim_C7_missing_tphl_sentinel (env : SimEnv) (v : ℚ)
    (h1 : env.spicelib_available = true) (h2 : env.cir_file_exists = true)
    (h3 : env.submit = Except.ok ()) (h4 : env.failSim = 0)
    (h5 : env.completed_tasks_empty = false) (h6 : env.log_file_exists = true)
    (h7 : extractMeasures env = Except.ok (none, some v)) :
    run_simulation_and_extract_delay env =
      { success := true, delay_ns := (1e-6 + v) / 2.0 * 1e9,
        tphl := 1e-6 * 1e9, tplh := v * 1e9 } := by
  simp [run_simulation_and_extract_delay, h1, h2, h3, h4, h5, h6, h7]

/-- An environment where the simulation completes, the structured reader
raises at once, and the textual fallback finds only `tplh` (2 ns). -/
def envOnlyTplh : SimEnv :=
  { spicelib_available := true, cir_file_exists := true
    submit := Except.ok (), failSim := 0, completed_tasks_empty := false
    log_file_exists := true, readerInit := Except.error ()
    read_tphl := Except.error (), read_tplh := Except.error ()
    fallback_read := Except.ok (), fallback_tphl := none
    fallback_tplh := some (Except.ok (2e-9)) }

/-- Witness for C7 on `envOnlyTplh`. -/
theorem claim_C7_witness :
    envOnlyTplh.spicelib_available = true ∧
    envOnlyTplh.cir_file_exists = true ∧
    envOnlyTplh.submit = Except.ok () ∧
    envOnlyTplh.failSim = 0 ∧
    envOnlyTplh.completed_tasks_empty = false ∧
    envOnlyTplh.log_file_exists = true ∧
    extractMeasures envOnlyTplh = Except.ok (none, some 2e-9) ∧
    run_simulation_and_extract_delay envOnlyTplh =
      { success := true, delay_ns := ((1e-6 : ℚ) + 2e-9) / 2.0 * 1e9,
        tphl := (1e-6 : ℚ) * 1e9, tplh := (2e-9 : ℚ) * 1e9 } :=
  ⟨rfl, rfl, rfl, rfl, rfl, rfl, rfl,
    claim_C7_missing_tphl_sentinel envOnlyTplh 2e-9 rfl rfl rfl rfl rfl rfl rfl⟩

/-- C8.  The grid search filters exactly the pairs with ratio in
`[1.2, 4.5]` (leaving `(1,3), (2,3), (2,6), (2,9), (3,6), (3,9)`), its loop
body leaves the incumbent unchanged on filtered pairs, on failed outcomes and
on non-improving successful outcomes, and when every evaluation fails the
search ends with its initial state `(1e9, none)`: no best result. -/
theorem claim_C8_grid_search (ev : ℚ → ℚ → SimOutcome) :
    evaluatedPairs = [(1, 3), (2, 3), (2, 6), (2, 9), (3, 6), (3, 9)] ∧
    (∀ st p, (p.2 / p.1 < 1.2 ∨ p.2 / p.1 > 4.5) → gridStep ev st p = st) ∧
    (∀ st p, (ev p.1 p.2).success = false → gridStep ev st p = st) ∧
    (∀ st p, (ev p.1 p.2).success = true →
      ¬ ((ev p.1 p.2).delay_ns < st.1) → gridStep ev st p = st) ∧
    ((∀ a b, (ev a b).success = false) →
      optimize_with_simulator ev = (1e9, none)) := by
  refine ⟨?_, ?_, ?_, ?_, ?_⟩
  · norm_num [evaluatedPairs, gridPairs, Wn_values, Wp_values, List.filter]
  · intro st p h
    unfold gridStep
    rw [if_pos h]
  · intro st p h
    unfold gridStep
    split_ifs with h1 h2 <;> simp_all
  · intro st p h h'
    unfold gridStep
    split_ifs with h1 h2 h3 <;> simp_all
  · intro hfail
    have step_const : ∀ st p, gridStep ev st p = st := by
      intro st p
      unfold gridStep
      split_ifs with h1 h2 <;> simp_all [hfail p.1 p.2]
    have fold_const : ∀ (l : List (ℚ × ℚ)) (st : ℚ × Option (ℚ × ℚ × ℚ)),
        l.foldl (gridStep ev) st = st := by
      intro l
      induction l with
      | nil => intro st; rfl
      | cons p t ih =>
        intro st
        rw [List.foldl_cons, step_const st p, ih st]
    exact fold_const gridPairs (1e9, none)

/-- Witness for C8: with an evaluator that always fails, the grid search
reports no best result. -/
theorem claim_C8_witness :
    optimize_with_simulator (fun _ _ => failureOutcome) = (1e9, none) :=
  (claim_C8_grid_search (fun _ _ => failureOutcome)).2.2.2.2
    (fun _ _ => rfl)

/-- C10.  When the simulation completes but neither measurement is
extracted, both are replaced by the 1-microsecond sentinel and the call still
returns a *success* outcome with `delay_ns = 1000.0`; that is strictly below
the `1e6` failure penalty, and such an outcome updates the grid-search
incumbent past any state whose best delay exceeds `1000` — including one
holding real measurements. -/
theorem claim_C10_all_sentinel_outcome (env : SimEnv)
    (h1 : env.spicelib_available = true) (h2 : env.cir_file_exists = true)
    (h3 : env.submit = Except.ok ()) (h4 : env.failSim = 0)
    (h5 : env.completed_tasks_empty = false) (h6 : env.log_file_exists = true)
    (h7 : extractMeasures env = Except.ok (none, none)) :
    run_simulation_and_extract_delay env =
      { success := true, delay_ns := 1000, tphl := 1000, tplh := 1000 } ∧
    (1000 : ℚ) < 1e6 ∧
    (∀ d prm Wn Wp, ¬ (Wp / Wn < 1.2 ∨ Wp / Wn > 4.5) → 1000 < d →
      gridStep (fun _ _ => run_simulation_and_extract_delay env) (d, prm)
          (Wn, Wp) =
        (1000, some (Wn, Wp, L_val))) := by
  have hrun : run_simulation_and_extract_delay env =
      { success := true, delay_ns := 1000, tphl := 1000, tplh := 1000 } := by
    simp [run_simulation_and_extract_delay, h1, h2, h3, h4, h5, h6, h7,
      SimOutcome.mk.injEq]
    norm_num
  refine ⟨hrun, by norm_num, ?_⟩
  intro d prm Wn Wp hw hd
  unfold gridStep
  rw [if_neg hw]
  simp [hrun, hd]

/-- An environment where the simulation completes but no measurement is
recoverable: the structured reader raises and the fallback matches nothing. -/
def envNoMeasures : SimEnv :=
  { spicelib_available := true, cir_file_exists := true
    submit := Except.ok (), failSim := 0, completed_tasks_empty := false
    log_file_exists := true, readerInit := Except.error ()
    read_tphl := Except.error (), read_tplh := Except.error ()
    fallback_read := Except.ok (), fallback_tphl := none
    fallback_tplh := none }

/-- Witness for C10 on `envNoMeasures`, displacing an incumbent with a real
(but slower) 2000 ns delay on the evaluated pair `(1, 3)`. -/
theorem claim_C10_witness :
    (run_simulation_and_extract_delay envNoMeasures =
      { success := true, delay_ns := 1000, tphl := 1000, tplh := 1000 } ∧
    (1000 : ℚ) < 1e6 ∧
    (∀ d prm Wn Wp, ¬ (Wp / Wn < 1.2 ∨ Wp / Wn > 4.5) → 1000 < d →
      gridStep (fun _ _ => run_simulation_and_extract_delay envNoMeasures)
          (d, prm) (Wn, Wp) =
        (1000, some (Wn, Wp, L_val)))) ∧
    ¬ ((3 : ℚ) / 1 < 1.2 ∨ (3 : ℚ) / 1 > 4.5) ∧ (1000 : ℚ) < 2000 :=
  ⟨claim_C10_all_sentinel_outcome envNoMeasures rfl rfl rfl rfl rfl rfl rfl,
    by norm_num, by norm_num⟩

end CmosInverter
